import Mathlib

/-!
# Verification of the audiosetdl segment acquisition pipeline

A shallow embedding, in Lean 4, of the core of the `audiosetdl` repository
(`download_audioset.py`, `validation.py`, `utils.py`, `errors.py`), together
with theorems settling the specified properties of the pipeline.

Modelling conventions:
* Python floats are modelled as rationals (`ℚ`); `str`/`float` round trips on
  numeric command-line arguments are transparent, so an argument list element
  is either a literal string token (`Arg.flag`) or a numeric value
  (`Arg.val`).
* Exceptions are modelled as explicit outcome constructors; external process
  executions are modelled by oracles supplying their observable outcomes.
* Filesystem existence is a boolean predicate on paths; deleting a file sets
  the corresponding presence flag to `false`.
-/

/-- One element of an ffmpeg argument list (Python `list[str]`).  Numeric
entries (produced by `str(x)` on a number and consumed by `float(x)`) are kept
as rationals; all other tokens are literal strings. -/
inductive Arg where
  | flag (s : String)
  | val (q : ℚ)
deriving DecidableEq, Repr

/-- The error taxonomy of `errors.py` as far as the `ffmpeg` retry loop can
observe it: `SubprocessError` (carrying `cmd_stderr`),
`FfmpegIncorrectDurationError` (carrying target and actual durations), and a
generic `FfmpegValidationError`.  `FfmpegIncorrectDurationError` is a Python
subclass of `FfmpegValidationError`, but the `except` clauses in
`download_audioset.py` list the subclass first, so the two are dispatched as
distinct variants. -/
inductive FfmpegError where
  | subprocessError (cmd_stderr : String)
  | incorrectDuration (target actual : ℚ)
  | validationError (msg : String)
deriving DecidableEq, Repr

/-- Uncaught Python exceptions that can escape the `ffmpeg` retry loop from
the duration-correction code (`list.index` or `float` raising `ValueError`,
list subscripting raising `IndexError`). -/
inductive PyExc where
  | valueError
  | indexError
deriving DecidableEq, Repr

deriving instance DecidableEq for Except

/-- Observable outcome of one attempt of the loop body: the result of
`run_command` followed by the optional validation callback (`Except.ok` when
both succeed, otherwise the first exception raised), plus whether the output
file exists on disk right after the attempt ran. -/
structure AttemptOut where
  result : Except FfmpegError Unit
  filePresentAfter : Bool
deriving DecidableEq, Repr

/-- The mutable state threaded through the retry loop of `ffmpeg` in
`download_audioset.py`: the `input_args` and `output_args` lists (mutated in
place by the duration correction) and whether the output file currently
exists on disk. -/
structure LoopState where
  input_args : List Arg
  output_args : List Arg
  filePresent : Bool
deriving DecidableEq, Repr

/-- Python `str.rstrip()`: remove trailing whitespace. -/
def rstrip (s : String) : String :=
  String.mk ((s.data.reverse.dropWhile Char.isWhitespace).reverse)

/-- Whether the second character list starts with the first. -/
def charsStartWith : List Char → List Char → Bool
  | [], _ => true
  | _ :: _, [] => false
  | c :: cs, d :: ds => c = d && charsStartWith cs ds

/-- Python `s.startswith(pat)`. -/
def pyStartsWith (s pat : String) : Bool :=
  charsStartWith pat.data s.data

/-- Python `s.endswith(pat)`. -/
def pyEndsWith (s pat : String) : Bool :=
  charsStartWith pat.data.reverse s.data.reverse

/-- A character matched by `(X|[0-9])` in `HTTP_ERR_PATTERN` of `utils.py`. -/
def isHttpDigit (c : Char) : Bool :=
  c = 'X' || c.isDigit

/-- `HTTP_ERR_PATTERN.match s` from `utils.py`: the regex
`Server returned (4|5)(X|[0-9])(X|[0-9])` anchored at the start of the
string (Python `re.match`). -/
def httpErrMatch (s : String) : Bool :=
  pyStartsWith s "Server returned " &&
    match s.data.drop 16 with
    | c1 :: c2 :: c3 :: _ => (c1 = '4' || c1 = '5') && isHttpDigit c2 && isHttpDigit c3
    | _ => false

/-- Result of the Python duration-patching statement
`args[args.index('-t') + 1] = str(float(args[args.index('-t') + 1]) + diff)`
on one argument list: either the patched list, or the raised exception
(`ValueError` when `'-t'` is absent or the following entry is not numeric,
`IndexError` when `'-t'` is the final entry). -/
inductive PatchOut where
  | patched (args : List Arg)
  | valueError
  | indexError
deriving DecidableEq, Repr

/-- `float(arg)` on an argument-list entry: numeric entries convert, literal
flag tokens raise `ValueError`. -/
def argFloat : Arg → Option ℚ
  | .val q => some q
  | .flag _ => none

/-- The in-place duration patch applied to a single argument list (lines
282-283 / 285-286 of `download_audioset.py`). -/
def patchDur (diff : ℚ) (args : List Arg) : PatchOut :=
  match args.findIdx? (· = Arg.flag "-t") with
  | none => .valueError
  | some i =>
    match args.get? (i + 1) with
    | none => .indexError
    | some a =>
      match argFloat a with
      | none => .valueError
      | some q => .patched (args.set (i + 1) (.val (q + diff)))

/-- Result of the whole duration-correction `try/except ValueError` block:
patch `input_args` first; on `ValueError` fall back to `output_args`; a
second `ValueError`, or any `IndexError`, propagates out of the loop. -/
inductive FixOut where
  | ok (input_args output_args : List Arg)
  | raise (e : PyExc)
deriving DecidableEq, Repr

/-- Lines 281-286 of `download_audioset.py`: apply the duration correction to
whichever argument list carries a patchable `'-t'`, preferring `input_args`. -/
def fixDuration (diff : ℚ) (ia oa : List Arg) : FixOut :=
  match patchDur diff ia with
  | .patched ia2 => .ok ia2 oa
  | .indexError => .raise .indexError
  | .valueError =>
    match patchDur diff oa with
    | .patched oa2 => .ok ia oa2
    | .indexError => .raise .indexError
    | .valueError => .raise .valueError

/-- How the `ffmpeg` retry loop leaves a call: `broke` (success, or an
"already exists. Exiting." stderr), `exhausted` (the `for`-`else` clause: the
budget ran out; the last stored error is logged and the function returns
normally), or `raised` (an uncaught exception escaped to the caller). -/
inductive FfmpegExit where
  | broke
  | exhausted (lastErr : Option FfmpegError)
  | raised (e : PyExc)
deriving DecidableEq, Repr

/-- Result of dispatching one iteration of the loop body on an attempt
outcome: either continue into the next iteration with an updated state and
the error stored in `last_err`, or halt the loop. -/
inductive StepRes where
  | cont (st : LoopState) (e : FfmpegError)
  | halt (final : LoopState) (exit : FfmpegExit)
deriving DecidableEq, Repr

/-- One iteration of the body of the retry loop in `ffmpeg`
(`download_audioset.py`, lines 250-297), given the attempt index, the state
at the start of the iteration, and the observable outcome of running the
command (plus validation).  Transliterates the `try`/`except` dispatch:

* success: `break`;
* `SubprocessError`: if the rstripped stderr ends with
  `'already exists. Exiting.'`, `break`; else if it matches the HTTP 4xx/5xx
  pattern, retry immediately (no deletion); else delete the output file if
  present and retry;
* `FfmpegIncorrectDurationError`: delete the output if present and a retry
  remains (`attempt < num_retries - 1`), patch the duration argument by
  `target - actual`, and retry (an unpatchable argument list raises);
* `FfmpegValidationError`: delete the output if present and a retry remains,
  and retry. -/
def ffmpegStep (num_retries attempt : ℕ) (st : LoopState) (out : AttemptOut) :
    StepRes :=
  let st1 : LoopState := { st with filePresent := out.filePresentAfter }
  match out.result with
  | .ok _ => .halt st1 .broke
  | .error e =>
    match e with
    | .subprocessError stderr =>
      let s := rstrip stderr
      if pyEndsWith s "already exists. Exiting." then
        .halt st1 .broke
      else if httpErrMatch s then
        .cont st1 e
      else
        .cont { st1 with filePresent := false } e
    | .incorrectDuration target actual =>
      let st2 : LoopState :=
        if attempt < num_retries - 1 then { st1 with filePresent := false } else st1
      match fixDuration (target - actual) st2.input_args st2.output_args with
      | .ok ia oa => .cont { st2 with input_args := ia, output_args := oa } e
      | .raise exc => .halt st2 (.raised exc)
    | .validationError _ =>
      let st2 : LoopState :=
        if attempt < num_retries - 1 then { st1 with filePresent := false } else st1
      .cont st2 e

/-- The record kept for one executed attempt: its index, the loop state at
the start of the iteration, and the observed outcome. -/
structure AttemptRecord where
  idx : ℕ
  st : LoopState
  out : AttemptOut
deriving DecidableEq, Repr

/-- A completed call of the retry loop: the trace of executed attempts, the
final loop state, and how the loop exited. -/
structure FfmpegRun where
  trace : List AttemptRecord
  final : LoopState
  exit : FfmpegExit
deriving DecidableEq, Repr

/-- The retry loop of `ffmpeg`, driven by an oracle giving each attempt's
observable outcome as a function of the attempt index and the current state.
`fuel` is the number of iterations left (`num_retries - attempt`); when it
reaches zero the `for`-`else` clause runs. -/
def ffmpegGo (oracle : ℕ → LoopState → AttemptOut) (num_retries : ℕ) :
    ℕ → ℕ → LoopState → Option FfmpegError → FfmpegRun
  | 0, _, st, lastErr => ⟨[], st, .exhausted lastErr⟩
  | fuel + 1, attempt, st, _ =>
    let out := oracle attempt st
    match ffmpegStep num_retries attempt st out with
    | .halt f ex => ⟨[⟨attempt, st, out⟩], f, ex⟩
    | .cont st2 e =>
      let r := ffmpegGo oracle num_retries fuel (attempt + 1) st2 (some e)
      ⟨⟨attempt, st, out⟩ :: r.trace, r.final, r.exit⟩

/-- The `ffmpeg` function's retry loop (`for attempt in range(num_retries)`)
started from the initial argument lists, with `last_err = None`. -/
def runFfmpeg (oracle : ℕ → LoopState → AttemptOut) (num_retries : ℕ)
    (st : LoopState) : FfmpegRun :=
  ffmpegGo oracle num_retries num_retries 0 st none

/-- Python `int()` applied to a float: truncation toward zero. -/
def pyInt (q : ℚ) : ℤ :=
  if 0 ≤ q then ⌊q⌋ else ⌈q⌉

/-- `get_media_filename` from `utils.py`: the output basename
`'{}_{}_{}'.format(ytid, int(ts_start * 1000), int(ts_end * 1000))`. -/
def get_media_filename (ytid : String) (ts_start ts_end : ℚ) : String :=
  ytid ++ "_" ++ toString (pyInt (ts_start * 1000)) ++ "_" ++
    toString (pyInt (ts_end * 1000))

/-- `TOL` from `validation.py`: allowed variation in output duration, in
seconds. -/
def TOL : ℚ := 7 / 10

/-- The `audio_info` dictionary built in `download_yt_video` and consumed by
`validate_audio`; its keys in insertion order are `sample_rate`, `channels`,
`bitrate`, `encoding`, `duration`. -/
structure AudioInfo where
  sample_rate : ℕ
  channels : ℕ
  bitrate : ℕ
  encoding : String
  duration : ℚ
deriving DecidableEq, Repr

/-- The fields of the dictionary returned by `sox.file_info.info` that
`validate_audio` reads (numeric values as rationals, `encoding` a string). -/
structure SoxInfo where
  bitrate : ℚ
  channels : ℚ
  encoding : String
  num_samples : ℚ
  sample_rate : ℚ
deriving DecidableEq, Repr

/-- The `video_info` dictionary built in `download_yt_video` and consumed by
`validate_video`.  The frame-rate strings `"{num}/{den}"` are modelled in
split form as numerator/denominator pairs (the source builds them with
`"{}/1".format(video_frame_rate)` and compares them textually against the
ffprobe stream values, which are modelled in the same split form). -/
structure VideoInfo where
  r_frame_rate : ℕ × ℕ
  avg_frame_rate : ℕ × ℕ
  codec_name : String
  duration : ℚ
deriving DecidableEq, Repr

/-- The fields of an ffprobe stream object that `validate_video` reads.  The
two frame-rate ratio strings are modelled in split numerator/denominator
form; a missing JSON key is `none` (its lookup raises `KeyError`). -/
structure VideoStreamJson where
  codec_type : Option String
  r_frame_rate : Option (ℕ × ℕ)
  avg_frame_rate : Option (ℕ × ℕ)
  nb_frames : Option ℕ
  codec_name : Option String
deriving DecidableEq, Repr

/-- The parsed ffprobe JSON document: its list of streams. -/
structure FfprobeJson where
  streams : List VideoStreamJson
deriving DecidableEq, Repr

/-- Result of the stream selection
`next(stream for stream in streams if stream['codec_type'] == 'video')`:
the first video stream, an uncaught `KeyError` if a stream examined on the
way lacks the `codec_type` key, or an uncaught `StopIteration` when no
video stream exists. -/
inductive FindResult where
  | found (s : VideoStreamJson)
  | keyErr
  | stopIter
deriving DecidableEq, Repr

/-- The stream-selection generator of `validation.py` line 122. -/
def findVideoStream : List VideoStreamJson → FindResult
  | [] => .stopIter
  | s :: rest =>
    match s.codec_type with
    | none => .keyErr
    | some ct => if ct = "video" then .found s else findVideoStream rest

/-- How a call to `validate_audio` or `validate_video` terminates, covering
every exception the source can raise on these paths: a successful return,
`FfmpegIncorrectDurationError` (carrying target and actual durations),
generic `FfmpegValidationError`, and the uncaught non-validation exceptions
`SubprocessError` (from `run_command` inside `ffprobe`), `StopIteration`
(no stream with `codec_type == 'video'`), `KeyError` (missing stream key in
the property loop) and `ZeroDivisionError`. -/
inductive ValOutcome where
  | ok
  | durationMismatch (target actual : ℚ)
  | validationError (msg : String)
  | subprocessError
  | stopIteration
  | keyError
  | zeroDivisionError
deriving DecidableEq, Repr

/-- `validate_audio` from `validation.py`.  `fileExists` is
`os.path.exists(audio_filepath)`; `sox` is the dictionary returned by
`sox.file_info.info` for the existing file.  The actual duration is computed
as `sox_info['num_samples'] / audio_info['sample_rate']` (the target sample
rate, not the measured one); a non-duration property loop then compares
`sample_rate`, `channels`, `bitrate` and `encoding` after numeric conversion
(`encoding` stays a string), skipping the `duration` key.  The
`end_past_video_end` argument is accepted but unused (its uses are commented
out in the source). -/
def validate_audio (fileExists : Bool) (sox : SoxInfo) (audio_info : AudioInfo)
    (end_past_video_end : Bool) : ValOutcome :=
  if fileExists = false then
    .validationError "Output file does not exist."
  else
    let _ := end_past_video_end
    if audio_info.sample_rate = 0 then .zeroDivisionError
    else
      let target := audio_info.duration
      let actual := sox.num_samples / (audio_info.sample_rate : ℚ)
      if target ≠ actual ∧ (actual < target - TOL ∨ target + TOL < actual) then
        .durationMismatch target actual
      else if (audio_info.sample_rate : ℚ) ≠ sox.sample_rate then
        .validationError "sample_rate"
      else if (audio_info.channels : ℚ) ≠ sox.channels then
        .validationError "channels"
      else if (audio_info.bitrate : ℚ) ≠ sox.bitrate then
        .validationError "bitrate"
      else if audio_info.encoding ≠ sox.encoding then
        .validationError "encoding"
      else .ok

/-- `validate_video` from `validation.py`.  The function performs no
existence check of its own: it immediately shells out to ffprobe through
`run_command`, which raises `SubprocessError` on the probe's non-zero exit —
which is what ffprobe yields when its input file is missing (the external
tools signal failure via non-zero exit status).  `probe` is the parsed JSON
on a successful probe (`none` models a falsy/empty document).  The first
stream with `codec_type == 'video'` is selected (uncaught `StopIteration`
if none).  The frame-rate expression
`ffprobe_info.get('r_frame_rate', ffprobe_info['avg_frame_rate'])`
evaluates its default argument eagerly, so a missing `avg_frame_rate` key
raises `KeyError` — caught and turned into the generic "Could not get frame
rate" validation error — even when `r_frame_rate` is present; when
`avg_frame_rate` is present, the ratio used is `r_frame_rate` if present,
else `avg_frame_rate`.  The actual duration is
`float(nb_frames) / frame_rate` (an uncaught `KeyError` when `nb_frames` is
missing, an uncaught `ZeroDivisionError` when the rate is zero); the
non-duration property loop then compares `r_frame_rate`, `avg_frame_rate`
and `codec_name` (a missing stream key there raises an uncaught
`KeyError`), skipping `duration`. -/
def validate_video (fileExists : Bool) (probe : Option FfprobeJson)
    (video_info : VideoInfo) (end_past_video_end : Bool) : ValOutcome :=
  if fileExists = false then .subprocessError
  else
    let _ := end_past_video_end
    match probe with
    | none => .validationError "Could not analyse with ffprobe"
    | some pj =>
      if pj.streams = [] then
        .validationError "has no video streams!"
      else
        match findVideoStream pj.streams with
        | .keyErr => .keyError
        | .stopIter => .stopIteration
        | .found stream =>
          let target := video_info.duration
          match stream.avg_frame_rate with
          | none => .validationError "Could not get frame rate"
          | some avg =>
            match (stream.r_frame_rate).getD avg with
            | (fr_num, fr_den) =>
              if fr_den = 0 then .zeroDivisionError
              else
                let actual_framerate : ℚ := (fr_num : ℚ) / (fr_den : ℚ)
                match stream.nb_frames with
                | none => .keyError
                | some nb =>
                  if actual_framerate = 0 then .zeroDivisionError
                  else
                    let actual := (nb : ℚ) / actual_framerate
                    if target ≠ actual ∧
                        (actual < target - TOL ∨ target + TOL < actual) then
                      .durationMismatch target actual
                    else
                      match stream.r_frame_rate with
                      | none => .keyError
                      | some rr =>
                        if video_info.r_frame_rate ≠ rr then
                          .validationError "r_frame_rate"
                        else if video_info.avg_frame_rate ≠ avg then
                          .validationError "avg_frame_rate"
                        else
                          match stream.codec_name with
                          | none => .keyError
                          | some cn =>
                            if video_info.codec_name ≠ cn then
                              .validationError "codec_name"
                            else .ok

/-- Uncaught Python exceptions observable at the job / dispatcher level:
`ValueError` (invalid video mode; `float()` on a malformed manifest field),
`NotImplementedError` (merge mode with a non-h264 codec) and `IndexError`
(subscripting a too-short manifest row). -/
inductive PyError where
  | valueError
  | notImplementedError
  | indexError
deriving DecidableEq, Repr

/-- Configuration keywords of `download_yt_video`, with the defaults from its
signature. -/
structure DLConfig where
  audio_codec : String := "flac"
  audio_format : String := "flac"
  audio_sample_rate : ℕ := 48000
  audio_bit_depth : ℕ := 16
  video_codec : String := "h264"
  video_format : String := "mp4"
  video_mode : String := "bestvideoaudio"
  video_frame_rate : ℕ := 30
  num_retries : ℕ := 10
deriving DecidableEq, Repr

/-- The validation callback and arguments attached to one ffmpeg invocation
(`validation_callback` / `validation_args` in `download_yt_video`). -/
inductive ValCallback where
  | audio (info : AudioInfo) (end_past_video_end : Bool)
  | video (info : VideoInfo) (end_past_video_end : Bool)
deriving DecidableEq, Repr

/-- One call to the `ffmpeg` helper issued by `download_yt_video`: input
path(s), output path, the two argument lists, the retry budget and the
attached validation callback. -/
structure Invocation where
  inputs : List String
  output_path : String
  input_args : List Arg
  output_args : List Arg
  num_retries : ℕ
  validation : Option ValCallback
deriving DecidableEq, Repr

/-- The effective segment window after the clamping step of
`download_yt_video` (lines 396-402): if the requested end time exceeds the
resolved source duration, the duration becomes `video_duration - ts_start`,
the end time is recomputed as `ts_start + duration`, and the
`end_past_video_end` flag is set. -/
structure ClampResult where
  duration : ℚ
  ts_end : ℚ
  end_past_video_end : Bool
deriving DecidableEq, Repr

/-- Lines 382 and 396-402 of `download_audioset.py`. -/
def clampSegment (ts_start ts_end video_duration : ℚ) : ClampResult :=
  let duration := ts_end - ts_start
  if video_duration < ts_end then
    let d := video_duration - ts_start
    { duration := d, ts_end := ts_start + d, end_past_video_end := true }
  else
    { duration := duration, ts_end := ts_end, end_past_video_end := false }

/-- `download_yt_video` from `download_audioset.py`, as the sequence of
ffmpeg invocations it issues paired with the exception it raises, if any.
The source-resolution collaborator (pafy) is supplied as inputs: the total
source duration `video_duration` (`video.length`), whether a video-only
stream exists (`video.getbestvideo() is not None`), and the three candidate
stream URLs.  In `bestvideowithaudio` mode the final rename of the merged
file (lines 500-505) issues no further invocation and is elided. -/
def download_yt_video (ytid : String) (ts_start ts_end : ℚ)
    (output_dir : String) (video_duration : ℚ) (hasBestVideoOnly : Bool)
    (bestVideoOnlyUrl bestUrl bestAudioUrl : String) (cfg : DLConfig) :
    List Invocation × Option PyError :=
  let media_filename := get_media_filename ytid ts_start ts_end
  let video_filepath :=
    output_dir ++ "/video/" ++ media_filename ++ "." ++ cfg.video_format
  let audio_filepath :=
    output_dir ++ "/audio/" ++ media_filename ++ "." ++ cfg.audio_format
  let c := clampSegment ts_start ts_end video_duration
  let duration := c.duration
  if cfg.video_mode = "bestvideo" ∨ cfg.video_mode = "bestvideowithaudio" ∨
      cfg.video_mode = "bestvideoaudio" ∨
      cfg.video_mode = "bestvideoaudionoaudio" then
    let best_video_url :=
      if cfg.video_mode = "bestvideo" ∨ cfg.video_mode = "bestvideowithaudio"
      then (if hasBestVideoOnly then bestVideoOnlyUrl else bestUrl)
      else bestUrl
    let audio_info : AudioInfo :=
      { sample_rate := cfg.audio_sample_rate, channels := 2,
        bitrate := cfg.audio_bit_depth, encoding := cfg.audio_codec.toUpper,
        duration := duration }
    let video_info : VideoInfo :=
      { r_frame_rate := (cfg.video_frame_rate, 1),
        avg_frame_rate := (cfg.video_frame_rate, 1),
        codec_name := cfg.video_codec.toLower, duration := duration }
    let audioInv : Invocation :=
      { inputs := [bestAudioUrl], output_path := audio_filepath,
        input_args := [.flag "-n", .flag "-ss", .val ts_start],
        output_args :=
          [.flag "-t", .val duration,
           .flag "-ar", .val (cfg.audio_sample_rate : ℚ),
           .flag "-vn", .flag "-ac", .val ((2 : ℕ) : ℚ),
           .flag "-sample_fmt", .flag ("s" ++ toString cfg.audio_bit_depth),
           .flag "-f", .flag cfg.audio_format,
           .flag "-acodec", .flag cfg.audio_codec],
        num_retries := cfg.num_retries,
        validation := some (.audio audio_info c.end_past_video_end) }
    if cfg.video_mode ≠ "bestvideowithaudio" then
      let base : List Arg :=
        [.flag "-t", .val duration,
         .flag "-f", .flag cfg.video_format,
         .flag "-r", .val (cfg.video_frame_rate : ℚ),
         .flag "-vcodec", .flag cfg.video_codec]
      let video_output_args :=
        if cfg.video_mode = "bestvideo" ∨
            cfg.video_mode = "bestvideoaudionoaudio" then
          base ++ [.flag "-an"]
        else base
      let videoInv : Invocation :=
        { inputs := [best_video_url], output_path := video_filepath,
          input_args := [.flag "-n", .flag "-ss", .val ts_start],
          output_args := video_output_args,
          num_retries := cfg.num_retries,
          validation := some (.video video_info c.end_past_video_end) }
      ([audioInv, videoInv], none)
    else
      if cfg.video_codec ≠ "h264" then
        ([audioInv], some .notImplementedError)
      else
        let losslessInv : Invocation :=
          { inputs := [best_video_url], output_path := video_filepath,
            input_args := [.flag "-n", .flag "-ss", .val ts_start],
            output_args :=
              [.flag "-t", .val duration,
               .flag "-f", .flag cfg.video_format,
               .flag "-crf", .flag "0", .flag "-preset", .flag "medium",
               .flag "-r", .val (cfg.video_frame_rate : ℚ),
               .flag "-an", .flag "-vcodec", .flag cfg.video_codec],
            num_retries := cfg.num_retries, validation := none }
        let merge_video_filepath :=
          output_dir ++ "/video/" ++ media_filename ++ "_merge." ++
            cfg.video_format
        let mergeInv : Invocation :=
          { inputs := [video_filepath, audio_filepath],
            output_path := merge_video_filepath,
            input_args := [.flag "-n"],
            output_args :=
              [.flag "-f", .flag cfg.video_format,
               .flag "-r", .val (cfg.video_frame_rate : ℚ),
               .flag "-vcodec", .flag cfg.video_codec,
               .flag "-acodec", .flag "aac",
               .flag "-ar", .val (cfg.audio_sample_rate : ℚ),
               .flag "-ac", .val ((2 : ℕ) : ℚ),
               .flag "-strict", .flag "experimental"],
            num_retries := cfg.num_retries,
            validation := some (.video video_info c.end_past_video_end) }
        ([audioInv, losslessInv, mergeInv], none)
  else ([], some .valueError)

/-- A job submitted to the multiprocessing pool by `download_subset_videos`:
the identifying fields handed to `segment_mp_worker`. -/
structure Job where
  ytid : String
  ts_start : ℚ
  ts_end : ℚ
deriving DecidableEq, Repr

/-- What processing one manifest row does in `download_subset_videos` (lines
651-667): skip a comment line, skip a row whose two output files already
exist, or submit a worker job. -/
inductive RowAction where
  | commentSkip
  | existsSkip
  | submit (j : Job)
deriving DecidableEq, Repr

/-- The per-row body of the dispatcher loop in `download_subset_videos`.
`fs` is `os.path.exists`; `floatVal` is Python `float()` on a CSV field
(`none` models a raised `ValueError`).  Transliterates, in evaluation order:
`row[0][0]` (raising `IndexError` on an empty row or an empty first field),
the comment check, `float(row[1])`, `float(row[2])`, the derived output
paths and the existence skip-check. -/
def processRow (fs : String → Bool) (floatVal : String → Option ℚ)
    (data_dir video_format audio_format : String) (row : List String) :
    Except PyError RowAction :=
  match row.get? 0 with
  | none => .error .indexError
  | some f0 =>
    match f0.data.get? 0 with
    | none => .error .indexError
    | some c0 =>
      if c0 = '#' then .ok .commentSkip
      else
        match row.get? 1 with
        | none => .error .indexError
        | some f1 =>
          match floatVal f1 with
          | none => .error .valueError
          | some ts_start =>
            match row.get? 2 with
            | none => .error .indexError
            | some f2 =>
              match floatVal f2 with
              | none => .error .valueError
              | some ts_end =>
                let media_filename := get_media_filename f0 ts_start ts_end
                let video_filepath :=
                  data_dir ++ "/video/" ++ media_filename ++ "." ++ video_format
                let audio_filepath :=
                  data_dir ++ "/audio/" ++ media_filename ++ "." ++ audio_format
                if fs video_filepath && fs audio_filepath then .ok .existsSkip
                else .ok (.submit ⟨f0, ts_start, ts_end⟩)

/-- How a run of the dispatcher loop ends: normal completion, the
descriptive `sys.exit` reserved for `csv.Error` (a malformed manifest), or
an uncaught exception that terminates manifest iteration. -/
inductive RunOutcome where
  | completed
  | sysExit
  | uncaught (e : PyError)
deriving DecidableEq, Repr

/-- The manifest-iteration loop of `download_subset_videos` (lines 651-674).
The CSV reader is modelled as a stream of items that are each either a
parsed row or a `csv.Error` (`Except.error`); a `csv.Error` is caught and
turned into the descriptive `sys.exit`, while exceptions raised by the row
body propagate uncaught.  Returns the jobs submitted to the pool, in order,
and the outcome of the run. -/
def download_subset_videos (fs : String → Bool) (floatVal : String → Option ℚ)
    (data_dir video_format audio_format : String) :
    List (Except Unit (List String)) → List Job × RunOutcome
  | [] => ([], .completed)
  | .error _ :: _ => ([], .sysExit)
  | .ok row :: rest =>
    match processRow fs floatVal data_dir video_format audio_format row with
    | .error e => ([], .uncaught e)
    | .ok .commentSkip =>
      download_subset_videos fs floatVal data_dir video_format audio_format rest
    | .ok .existsSkip =>
      download_subset_videos fs floatVal data_dir video_format audio_format rest
    | .ok (.submit j) =>
      let r :=
        download_subset_videos fs floatVal data_dir video_format audio_format rest
      (j :: r.1, r.2)

/-- An attempt outcome that the loop body handles by moving on to the next
iteration: a `SubprocessError` whose stderr does not signal an existing
output file (both the HTTP-pattern and the generic branch retry), an
`FfmpegIncorrectDurationError` whose correction finds a patchable `'-t'`
argument, or a generic `FfmpegValidationError`. -/
def handledFailure (st : LoopState) (out : AttemptOut) : Prop :=
  match out.result with
  | .ok _ => False
  | .error (.subprocessError stderr) =>
      pyEndsWith (rstrip stderr) "already exists. Exiting." = false
  | .error (.incorrectDuration t a) =>
      ∃ ia oa, fixDuration (t - a) st.input_args st.output_args = .ok ia oa
  | .error (.validationError _) => True

/-- The per-invocation obligations of the end-time clamping property: every
validation target carries duration `d` with the `end_past_video_end` flag
set, and every `'-t'` argument (in either argument list) has value `d`. -/
def clampedInv (d : ℚ) (inv : Invocation) : Prop :=
  (∀ info ep, inv.validation = some (.audio info ep) →
    info.duration = d ∧ ep = true) ∧
  (∀ info ep, inv.validation = some (.video info ep) →
    info.duration = d ∧ ep = true) ∧
  (∀ j, inv.output_args.findIdx? (· = Arg.flag "-t") = some j →
    inv.output_args[j + 1]? = some (.val d)) ∧
  (∀ j, inv.input_args.findIdx? (· = Arg.flag "-t") = some j →
    inv.input_args[j + 1]? = some (.val d))

/-! ## Lemmas about the retry loop -/

/-- Unfolding equation for a loop iteration with fuel left. -/
theorem ffmpegGo_succ (o : ℕ → LoopState → AttemptOut) (n fuel att : ℕ)
    (st : LoopState) (le : Option FfmpegError) :
    ffmpegGo o n (fuel + 1) att st le =
      match ffmpegStep n att st (o att st) with
      | .halt f ex => ⟨[⟨att, st, o att st⟩], f, ex⟩
      | .cont st2 e =>
        let r := ffmpegGo o n fuel (att + 1) st2 (some e)
        ⟨⟨att, st, o att st⟩ :: r.trace, r.final, r.exit⟩ := rfl

/-- The first record of a run with fuel left is the current attempt. -/
theorem ffmpegGo_trace_head (o : ℕ → LoopState → AttemptOut) (n fuel att : ℕ)
    (st : LoopState) (le : Option FfmpegError) (h : 0 < fuel) :
    (ffmpegGo o n fuel att st le).trace[0]? =
      some ⟨att, st, o att st⟩ := by
  cases fuel with
  | zero => omega
  | succ k =>
    rw [ffmpegGo_succ]
    rcases hstep : ffmpegStep n att st (o att st) with ⟨st2, e⟩ | ⟨f, ex⟩ <;>
      simp

/-- Every attempt index recorded in the trace is below `att + fuel`. -/
theorem ffmpegGo_trace_idx_lt (o : ℕ → LoopState → AttemptOut) (n : ℕ) :
    ∀ fuel att st le r, r ∈ (ffmpegGo o n fuel att st le).trace →
      r.idx < att + fuel := by
  intro fuel
  induction fuel with
  | zero => intro att st le r hr; simp [ffmpegGo] at hr
  | succ k ih =>
    intro att st le r hr
    rw [ffmpegGo_succ] at hr
    rcases hstep : ffmpegStep n att st (o att st) with ⟨st2, e⟩ | ⟨f, ex⟩ <;>
        rw [hstep] at hr <;> simp at hr
    · rcases hr with hr | hr
      · simp [hr]
      · have := ih (att + 1) st2 (some e) r hr
        omega
    · simp [hr]

/-- The outcome recorded for each attempt is the oracle's answer at that
attempt's index and entry state. -/
theorem ffmpegGo_trace_out (o : ℕ → LoopState → AttemptOut) (n : ℕ) :
    ∀ fuel att st le r, r ∈ (ffmpegGo o n fuel att st le).trace →
      r.out = o r.idx r.st := by
  intro fuel
  induction fuel with
  | zero => intro att st le r hr; simp [ffmpegGo] at hr
  | succ k ih =>
    intro att st le r hr
    rw [ffmpegGo_succ] at hr
    rcases hstep : ffmpegStep n att st (o att st) with ⟨st2, e⟩ | ⟨f, ex⟩ <;>
        rw [hstep] at hr <;> simp at hr
    · rcases hr with hr | hr
      · simp [hr]
      · exact ih (att + 1) st2 (some e) r hr
    · simp [hr]

/-- Two consecutive records of a trace are related by a continuing step: the
second attempt's index is one more than the first, and its entry state is
the state the step function produced from the first attempt's outcome. -/
theorem ffmpegGo_trace_consec (o : ℕ → LoopState → AttemptOut) (n : ℕ) :
    ∀ fuel att st le i r r',
      (ffmpegGo o n fuel att st le).trace[i]? = some r →
      (ffmpegGo o n fuel att st le).trace[i + 1]? = some r' →
      r'.idx = r.idx + 1 ∧
        ∃ e, ffmpegStep n r.idx r.st r.out = .cont r'.st e := by
  intro fuel
  induction fuel with
  | zero => intro att st le i r r' hr hr'; simp [ffmpegGo] at hr
  | succ k ih =>
    intro att st le i r r' hr hr'
    rw [ffmpegGo_succ] at hr hr'
    rcases hstep : ffmpegStep n att st (o att st) with ⟨st2, e⟩ | ⟨f, ex⟩ <;>
        rw [hstep] at hr hr'
    · cases i with
      | zero =>
        simp at hr
        have hk : 0 < k := by
          by_contra hk0
          have : k = 0 := by omega
          subst this
          simp [ffmpegGo] at hr'
        have hhead := ffmpegGo_trace_head o n k (att + 1) st2 (some e) hk
        simp at hr'
        rw [hhead] at hr'
        have hr'' : r' = ⟨att + 1, st2, o (att + 1) st2⟩ := by
          exact (Option.some_injective _ hr').symm
        subst hr''
        rw [← hr]
        exact ⟨rfl, ⟨e, hstep⟩⟩
      | succ j =>
        simp at hr hr'
        exact ih (att + 1) st2 (some e) j r r' hr hr'
    · simp at hr hr'

/-- A continuing step on a duration mismatch carries exactly the argument
lists produced by the duration correction. -/
theorem ffmpegStep_duration_cont (n att : ℕ) (st : LoopState)
    (out : AttemptOut) (t a : ℚ)
    (h : out.result = .error (.incorrectDuration t a)) (ia oa : List Arg)
    (hfix : fixDuration (t - a) st.input_args st.output_args = .ok ia oa)
    (st' : LoopState) (e : FfmpegError)
    (hstep : ffmpegStep n att st out = .cont st' e) :
    st'.input_args = ia ∧ st'.output_args = oa := by
  by_cases hlt : att < n - 1 <;>
    simp only [ffmpegStep, h, hlt, if_true, if_false, ite_true, ite_false,
      hfix] at hstep <;>
    rw [StepRes.cont.injEq] at hstep <;>
    rw [← hstep.1] <;> exact ⟨rfl, rfl⟩

/-- **C1.** For every attempt that ends in a `DurationMismatch` with target
duration `t` and actual duration `a` and is followed by another attempt, the
next attempt's index is one more than the previous one, and the value
following the `'-t'` flag is the previous duration value plus `t - a`,
applied to `input_args` when that list carries a patchable `'-t'` flag, and
otherwise to `output_args`, leaving the other list unchanged. -/
theorem c1_duration_retry_correction
    (o : ℕ → LoopState → AttemptOut) (n : ℕ) (st0 : LoopState)
    (i : ℕ) (r r' : AttemptRecord) (t a : ℚ)
    (hr : (runFfmpeg o n st0).trace[i]? = some r)
    (hr' : (runFfmpeg o n st0).trace[i + 1]? = some r')
    (hfail : r.out.result = .error (.incorrectDuration t a)) :
    r'.idx = r.idx + 1 ∧
    (∀ j q, r.st.input_args.findIdx? (· = Arg.flag "-t") = some j →
      r.st.input_args[j + 1]? = some (.val q) →
      r'.st.input_args = r.st.input_args.set (j + 1) (.val (q + (t - a))) ∧
      r'.st.output_args = r.st.output_args) ∧
    (r.st.input_args.findIdx? (· = Arg.flag "-t") = none →
     ∀ j q, r.st.output_args.findIdx? (· = Arg.flag "-t") = some j →
      r.st.output_args[j + 1]? = some (.val q) →
      r'.st.output_args = r.st.output_args.set (j + 1) (.val (q + (t - a))) ∧
      r'.st.input_args = r.st.input_args) := by
  obtain ⟨hidx, e, hstep⟩ := ffmpegGo_trace_consec o n n 0 st0 none i r r' hr hr'
  refine ⟨hidx, ?_, ?_⟩
  · intro j q hj hq
    have hfix : fixDuration (t - a) r.st.input_args r.st.output_args =
        .ok (r.st.input_args.set (j + 1) (.val (q + (t - a))))
          r.st.output_args := by
      simp [fixDuration, patchDur, hj, hq, argFloat]
    exact ffmpegStep_duration_cont n r.idx r.st r.out t a hfail _ _ hfix
      r'.st e hstep
  · intro hnone j q hj hq
    have hfix : fixDuration (t - a) r.st.input_args r.st.output_args =
        .ok r.st.input_args
          (r.st.output_args.set (j + 1) (.val (q + (t - a)))) := by
      simp [fixDuration, patchDur, hnone, hj, hq, argFloat]
    have := ffmpegStep_duration_cont n r.idx r.st r.out t a hfail _ _ hfix
      r'.st e hstep
    exact ⟨this.2, this.1⟩

/-- **C1 witness.** A concrete duration-mismatch retry: target 10s, actual
8.9s, `'-t'` carried by the output-side list with value 10; the next attempt
runs at index 1 with the output-side duration increased by the delta and the
input side unchanged. -/
theorem c1_duration_retry_correction_witness :
    ((runFfmpeg (fun _ _ => ⟨.error (.incorrectDuration 10 (89/10)), true⟩) 2
        ⟨[Arg.flag "-ss"], [Arg.flag "-t", Arg.val 10], false⟩).trace[1]?.map
      (fun r2 => (r2.idx, r2.st.input_args, r2.st.output_args))) =
      some (1, [Arg.flag "-ss"],
        [Arg.flag "-t", Arg.val (10 + (10 - 89/10))]) := by
  have hr : (runFfmpeg (fun _ _ =>
      ⟨.error (.incorrectDuration 10 (89/10)), true⟩) 2
      ⟨[Arg.flag "-ss"], [Arg.flag "-t", Arg.val 10], false⟩).trace[0]? =
      some ⟨0, ⟨[Arg.flag "-ss"], [Arg.flag "-t", Arg.val 10], false⟩,
        ⟨.error (.incorrectDuration 10 (89/10)), true⟩⟩ := rfl
  have hr' : (runFfmpeg (fun _ _ =>
      ⟨.error (.incorrectDuration 10 (89/10)), true⟩) 2
      ⟨[Arg.flag "-ss"], [Arg.flag "-t", Arg.val 10], false⟩).trace[1]? =
      some ⟨1, ⟨[Arg.flag "-ss"],
          [Arg.flag "-t", Arg.val (10 + (10 - 89/10))], false⟩,
        ⟨.error (.incorrectDuration 10 (89/10)), true⟩⟩ := rfl
  have h := c1_duration_retry_correction
    (fun _ _ => ⟨.error (.incorrectDuration 10 (89/10)), true⟩) 2
    ⟨[Arg.flag "-ss"], [Arg.flag "-t", Arg.val 10], false⟩ 0 _ _ 10 (89/10)
    hr hr' rfl
  obtain ⟨hout, hin⟩ := h.2.2 rfl 0 10 rfl rfl
  rw [hr']
  rfl

/-- A handled failure makes the loop body continue into the next iteration,
storing the raised error in `last_err`. -/
theorem handledFailure_cont (n att : ℕ) (st : LoopState) (out : AttemptOut)
    (h : handledFailure st out) :
    ∃ st2 e, ffmpegStep n att st out = .cont st2 e ∧
      out.result = .error e := by
  rcases hres : out.result with e | v
  case ok => simp only [handledFailure, hres] at h
  · cases e with
    | subprocessError stderr =>
      simp only [handledFailure, hres] at h
      cases hhttp : httpErrMatch (rstrip stderr)
      · refine ⟨⟨st.input_args, st.output_args, false⟩,
          .subprocessError stderr, ?_, rfl⟩
        simp [ffmpegStep, hres, h, hhttp]
      · refine ⟨⟨st.input_args, st.output_args, out.filePresentAfter⟩,
          .subprocessError stderr, ?_, rfl⟩
        simp [ffmpegStep, hres, h, hhttp]
    | incorrectDuration t a =>
      simp only [handledFailure, hres] at h
      obtain ⟨ia, oa, hfix⟩ := h
      by_cases hlt : att < n - 1
      · refine ⟨⟨ia, oa, false⟩, .incorrectDuration t a, ?_, rfl⟩
        simp [ffmpegStep, hres, hlt, hfix]
      · refine ⟨⟨ia, oa, out.filePresentAfter⟩, .incorrectDuration t a,
          ?_, rfl⟩
        simp [ffmpegStep, hres, hlt, hfix]
    | validationError m =>
      by_cases hlt : att < n - 1
      · refine ⟨⟨st.input_args, st.output_args, false⟩, .validationError m,
          ?_, rfl⟩
        simp [ffmpegStep, hres, hlt]
      · refine ⟨⟨st.input_args, st.output_args, out.filePresentAfter⟩,
          .validationError m, ?_, rfl⟩
        simp [ffmpegStep, hres, hlt]

/-- The trace never records more attempts than there is fuel for. -/
theorem ffmpegGo_length_le (o : ℕ → LoopState → AttemptOut) (n : ℕ) :
    ∀ fuel att st le, (ffmpegGo o n fuel att st le).trace.length ≤ fuel := by
  intro fuel
  induction fuel with
  | zero => intro att st le; simp [ffmpegGo]
  | succ k ih =>
    intro att st le
    rw [ffmpegGo_succ]
    rcases hstep : ffmpegStep n att st (o att st) with ⟨st2, e⟩ | ⟨f, ex⟩
    · simpa using ih (att + 1) st2 (some e)
    · simp

/-- When every attempt fails in a handled way, the loop consumes all its
fuel, returns through the `for`-`else` clause, and the reported last error
is the one raised by the final recorded attempt. -/
theorem ffmpegGo_exhausts (o : ℕ → LoopState → AttemptOut) (n : ℕ)
    (hall : ∀ att st, att < n → handledFailure st (o att st)) :
    ∀ fuel att st le, att + fuel = n → 0 < fuel →
      (ffmpegGo o n fuel att st le).trace.length = fuel ∧
      ∃ e r, (ffmpegGo o n fuel att st le).exit = .exhausted (some e) ∧
        (ffmpegGo o n fuel att st le).trace.getLast? = some r ∧
        r.out.result = .error e := by
  intro fuel
  induction fuel with
  | zero => intro att st le hn h0; omega
  | succ k ih =>
    intro att st le hn h0
    have hatt : att < n := by omega
    obtain ⟨st2, e, hstep, hres⟩ :=
      handledFailure_cont n att st (o att st) (hall att st hatt)
    rw [ffmpegGo_succ, hstep]
    cases k with
    | zero =>
      refine ⟨by simp [ffmpegGo], e, ⟨att, st, o att st⟩, ?_, ?_, hres⟩
      · simp [ffmpegGo]
      · simp [ffmpegGo]
    | succ m =>
      obtain ⟨hlen, e2, r2, hexit, hlast, hres2⟩ :=
        ih (att + 1) st2 (some e) (by omega) (by omega)
      refine ⟨by simpa using hlen, e2, r2, by simpa using hexit, ?_, hres2⟩
      have hne : (ffmpegGo o n (m + 1) (att + 1) st2 (some e)).trace ≠ [] := by
        intro hnil
        rw [hnil] at hlen
        simp at hlen
      rcases htr : (ffmpegGo o n (m + 1) (att + 1) st2 (some e)).trace with
        _ | ⟨y, t⟩
      · exact absurd htr hne
      · rw [htr] at hlast
        simp only
        rw [htr, List.getLast?_cons_cons]
        exact hlast

/-- **C2 (amended).** For every invocation of the retry loop, at most
`num_retries` attempts are executed; and when the budget is positive and
every attempt fails in a handled way (in particular every duration mismatch
finds a patchable `'-t'` argument), all `num_retries` attempts are executed
and the loop returns normally through the `for`-`else` clause, reporting as
last error exactly the error raised by the final attempt.  (Without the
handled-failure proviso the loop can instead raise: see the
counterexample.) -/
theorem c2_retry_budget (o : ℕ → LoopState → AttemptOut) (n : ℕ)
    (st0 : LoopState) :
    (runFfmpeg o n st0).trace.length ≤ n ∧
    (0 < n → (∀ att st, att < n → handledFailure st (o att st)) →
      (runFfmpeg o n st0).trace.length = n ∧
      ∃ e, (runFfmpeg o n st0).exit = .exhausted (some e) ∧
        ∃ r, (runFfmpeg o n st0).trace.getLast? = some r ∧
          r.out.result = .error e) := by
  constructor
  · exact ffmpegGo_length_le o n n 0 st0 none
  · intro hn hall
    obtain ⟨hlen, e, r, hexit, hlast, hres⟩ :=
      ffmpegGo_exhausts o n hall n 0 st0 none (by omega) hn
    exact ⟨hlen, e, hexit, r, hlast, hres⟩

/-- **C2 counterexample.** With budget 1, a single attempt that fails with a
duration mismatch while neither argument list carries a `'-t'` flag: every
attempt of the budget has failed, yet the loop does not return normally — it
raises an uncaught `ValueError` to the caller (this is reachable in the
source: the merge invocation of `bestvideowithaudio` mode validates a
duration but carries no `'-t'` argument). -/
theorem c2_counterexample :
    (runFfmpeg (fun _ _ => ⟨.error (.incorrectDuration 10 5), true⟩) 1
      ⟨[], [], false⟩).exit = .raised .valueError ∧
    (runFfmpeg (fun _ _ => ⟨.error (.incorrectDuration 10 5), true⟩) 1
      ⟨[], [], false⟩).trace.length = 1 :=
  ⟨rfl, rfl⟩

/-- **C2 witness.** Budget 3, every attempt failing with a generic
validation error: exactly 3 attempts run, the loop exits through the
`for`-`else` clause, and the preserved last error is the final attempt's. -/
theorem c2_retry_budget_witness :
    (runFfmpeg (fun _ _ => ⟨.error (.validationError "bad codec"), true⟩) 3
        ⟨[], [], false⟩).trace.length = 3 ∧
    ∃ e, (runFfmpeg (fun _ _ =>
        ⟨.error (.validationError "bad codec"), true⟩) 3
        ⟨[], [], false⟩).exit = .exhausted (some e) ∧
      ∃ r, (runFfmpeg (fun _ _ =>
          ⟨.error (.validationError "bad codec"), true⟩) 3
          ⟨[], [], false⟩).trace.getLast? = some r ∧
        r.out.result = .error e :=
  (c2_retry_budget (fun _ _ => ⟨.error (.validationError "bad codec"), true⟩)
    3 ⟨[], [], false⟩).2 (by omega) (fun _ _ _ => trivial)

/-- **C3 (amended).** Between any two consecutive attempts of the retry
loop: after a process failure that neither reports an existing output nor
matches the HTTP 4xx/5xx pattern, and after any duration-mismatch or
validation failure that is followed by a retry, the partial output file is
deleted (the next attempt starts with no file on disk); after an
HTTP-pattern process failure the file is *not* deleted — the next attempt
starts with whatever the failed attempt left on disk. -/
theorem c3_partial_output_cleanup
    (o : ℕ → LoopState → AttemptOut) (n : ℕ) (st0 : LoopState)
    (i : ℕ) (r r' : AttemptRecord)
    (hr : (runFfmpeg o n st0).trace[i]? = some r)
    (hr' : (runFfmpeg o n st0).trace[i + 1]? = some r') :
    (∀ stderr, r.out.result = .error (.subprocessError stderr) →
      httpErrMatch (rstrip stderr) = false → r'.st.filePresent = false) ∧
    (∀ t a, r.out.result = .error (.incorrectDuration t a) →
      r'.st.filePresent = false) ∧
    (∀ m, r.out.result = .error (.validationError m) →
      r'.st.filePresent = false) ∧
    (∀ stderr, r.out.result = .error (.subprocessError stderr) →
      httpErrMatch (rstrip stderr) = true →
      r'.st.filePresent = r.out.filePresentAfter) := by
  obtain ⟨hidx, e, hstep⟩ :=
    ffmpegGo_trace_consec o n n 0 st0 none i r r' hr hr'
  have hmem : r' ∈ (runFfmpeg o n st0).trace := by
    have hg : (runFfmpeg o n st0).trace.get? (i + 1) = some r' := by
      rw [List.get?_eq_getElem?]
      exact hr'
    exact List.get?_mem hg
  have hub : r'.idx < n := by
    have := ffmpegGo_trace_idx_lt o n n 0 st0 none r' hmem
    omega
  have hlt : r.idx < n - 1 := by omega
  refine ⟨?_, ?_, ?_, ?_⟩
  · intro stderr hres hhttp
    cases hex : pyEndsWith (rstrip stderr) "already exists. Exiting."
    · simp only [ffmpegStep, hres, hex, hhttp, Bool.false_eq_true,
        if_false, ite_false] at hstep
      rw [StepRes.cont.injEq] at hstep
      rw [← hstep.1]
    · simp [ffmpegStep, hres, hex] at hstep
  · intro t a hres
    simp only [ffmpegStep, hres, hlt, if_true, ite_true] at hstep
    rcases hfix : fixDuration (t - a) r.st.input_args r.st.output_args with
      ⟨ia, oa⟩ | exc
    · simp only [hfix] at hstep
      rw [StepRes.cont.injEq] at hstep
      rw [← hstep.1]
    · simp [hfix] at hstep
  · intro m hres
    simp only [ffmpegStep, hres, hlt, if_true, ite_true] at hstep
    rw [StepRes.cont.injEq] at hstep
    rw [← hstep.1]
  · intro stderr hres hhttp
    cases hex : pyEndsWith (rstrip stderr) "already exists. Exiting."
    · simp only [ffmpegStep, hres, hex, hhttp, Bool.false_eq_true,
        if_false, ite_false, if_true, ite_true] at hstep
      rw [StepRes.cont.injEq] at hstep
      rw [← hstep.1]
    · simp [ffmpegStep, hres, hex] at hstep

/-- **C3 counterexample.** An attempt fails with a process error whose
stderr matches the HTTP 4xx/5xx pattern and leaves a partial output file on
disk; the loop retries immediately and the next attempt starts with the
partial output still present — it was not deleted on this failure path. -/
theorem c3_counterexample :
    ((runFfmpeg (fun _ _ =>
        ⟨.error (.subprocessError "Server returned 503"), true⟩) 2
        ⟨[], [], false⟩).trace[1]?.map (fun r2 => r2.st.filePresent)) =
      some true ∧
    ((runFfmpeg (fun _ _ =>
        ⟨.error (.subprocessError "Server returned 503"), true⟩) 2
        ⟨[], [], false⟩).trace[0]?.map (fun r2 => r2.out.result)) =
      some (.error (.subprocessError "Server returned 503")) :=
  ⟨rfl, rfl⟩

/-- **C3 witness.** A non-HTTP process failure that leaves a file on disk:
the next attempt starts with the partial output deleted. -/
theorem c3_partial_output_cleanup_witness :
    ((runFfmpeg (fun _ _ =>
        ⟨.error (.subprocessError "ffmpeg: connection reset"), true⟩) 2
        ⟨[], [], false⟩).trace[1]?.map (fun r2 => r2.st.filePresent)) =
      some false := by
  have hr : (runFfmpeg (fun _ _ =>
      ⟨.error (.subprocessError "ffmpeg: connection reset"), true⟩) 2
      ⟨[], [], false⟩).trace[0]? =
      some ⟨0, ⟨[], [], false⟩,
        ⟨.error (.subprocessError "ffmpeg: connection reset"), true⟩⟩ := rfl
  have hr' : (runFfmpeg (fun _ _ =>
      ⟨.error (.subprocessError "ffmpeg: connection reset"), true⟩) 2
      ⟨[], [], false⟩).trace[1]? =
      some ⟨1, ⟨[], [], false⟩,
        ⟨.error (.subprocessError "ffmpeg: connection reset"), true⟩⟩ := rfl
  have h := c3_partial_output_cleanup (fun _ _ =>
      ⟨.error (.subprocessError "ffmpeg: connection reset"), true⟩) 2
      ⟨[], [], false⟩ 0 _ _ hr hr'
  have hdel := h.1 "ffmpeg: connection reset" rfl rfl
  rw [hr']
  exact congrArg some hdel

/-- **C4.** For every segment whose requested end time exceeds the resolved
source duration: the effective duration becomes `video_duration - ts_start`,
the effective end time is recomputed as `ts_start` plus that duration, the
`end_past_video_end` flag is set, and every ffmpeg invocation issued by
`download_yt_video` uses that effective duration both as the value of its
`'-t'` argument and as the `duration` entry of its validation target, with
the flag passed to the validator.  (The `≠ "-t"` side conditions keep the
degenerate configuration where a codec or container name is the literal
string `"-t"` out of scope.) -/
theorem c4_end_clamping (ytid : String) (ts_start ts_end : ℚ)
    (output_dir : String) (video_duration : ℚ) (hbv : Bool)
    (u1 u2 u3 : String) (cfg : DLConfig)
    (hend : video_duration < ts_end)
    (hvf : cfg.video_format ≠ "-t") (hvc : cfg.video_codec ≠ "-t") :
    (clampSegment ts_start ts_end video_duration).duration =
      video_duration - ts_start ∧
    (clampSegment ts_start ts_end video_duration).ts_end =
      ts_start + (video_duration - ts_start) ∧
    (clampSegment ts_start ts_end video_duration).end_past_video_end = true ∧
    ∀ inv ∈ (download_yt_video ytid ts_start ts_end output_dir
        video_duration hbv u1 u2 u3 cfg).1,
      clampedInv (video_duration - ts_start) inv := by
  have hc : clampSegment ts_start ts_end video_duration =
      ⟨video_duration - ts_start, ts_start + (video_duration - ts_start),
        true⟩ := by
    simp [clampSegment, hend]
  refine ⟨by rw [hc], by rw [hc], by rw [hc], ?_⟩
  intro inv hinv
  simp only [download_yt_video, hc] at hinv
  split_ifs at hinv <;>
    simp only [List.mem_cons, List.not_mem_nil, or_false] at hinv
  all_goals first
    | exact hinv.elim
    | (rcases hinv with rfl | rfl | rfl <;>
        (refine ⟨fun info ep hv => ?_, fun info ep hv => ?_,
            fun j hj => ?_, fun j hj => ?_⟩ <;>
          first
          | (simp at hv; all_goals (obtain ⟨rfl, rfl⟩ := hv; exact ⟨rfl, rfl⟩))
          | (simp [hvf, hvc] at hj; all_goals (subst hj; simp))))

/-- **C4 witness.** A segment requesting 2s–10s of a 5s source: the
effective duration is 3s, the effective end 5s, the flag is set, and every
invocation of a default-configuration download uses duration 3s. -/
theorem c4_end_clamping_witness :
    (clampSegment 2 10 5).duration = 5 - 2 ∧
    (clampSegment 2 10 5).ts_end = 2 + (5 - 2) ∧
    (clampSegment 2 10 5).end_past_video_end = true ∧
    ∀ inv ∈ (download_yt_video "abc" 2 10 "data" 5 true
        "u1" "u2" "u3" {}).1,
      clampedInv (5 - 2) inv :=
  c4_end_clamping "abc" 2 10 "data" 5 true "u1" "u2" "u3" {}
    (by norm_num) (by decide) (by decide)

/-- **C9.** A `video_mode` outside the four recognised strings makes
`download_yt_video` raise `ValueError` before issuing any ffmpeg
invocation; and the undocumented mode `bestvideoaudionoaudio` issues
exactly the invocations of `bestvideoaudio` except that the video
invocation's output arguments additionally end with `'-an'`. -/
theorem c9_video_mode (ytid : String) (ts_start ts_end : ℚ)
    (output_dir : String) (video_duration : ℚ) (hbv : Bool)
    (u1 u2 u3 : String) (cfg : DLConfig) :
    (cfg.video_mode ≠ "bestvideo" → cfg.video_mode ≠ "bestvideowithaudio" →
     cfg.video_mode ≠ "bestvideoaudio" →
     cfg.video_mode ≠ "bestvideoaudionoaudio" →
     download_yt_video ytid ts_start ts_end output_dir video_duration hbv
       u1 u2 u3 cfg = ([], some .valueError)) ∧
    (∃ a v, download_yt_video ytid ts_start ts_end output_dir video_duration
        hbv u1 u2 u3 { cfg with video_mode := "bestvideoaudio" } =
          ([a, v], none) ∧
      download_yt_video ytid ts_start ts_end output_dir video_duration hbv
        u1 u2 u3 { cfg with video_mode := "bestvideoaudionoaudio" } =
          ([a, { v with output_args := v.output_args ++ [.flag "-an"] }],
            none)) := by
  constructor
  · intro h1 h2 h3 h4
    simp [download_yt_video, h1, h2, h3, h4]
  · exact ⟨_, _, rfl, rfl⟩

/-- **C9 witness.** The unrecognised mode `"bogus"` yields `ValueError`
with no invocations issued. -/
theorem c9_video_mode_witness :
    download_yt_video "x" 0 1 "d" 9 true "a" "b" "c"
      { video_mode := "bogus" } = ([], some .valueError) :=
  (c9_video_mode "x" 0 1 "d" 9 true "a" "b" "c"
    { video_mode := "bogus" }).1 (by decide) (by decide) (by decide)
    (by decide)

/-- A row that the dispatcher submits as a job cannot have had both of its
derived output files present. -/
theorem processRow_submit_not_exists (fs : String → Bool)
    (floatVal : String → Option ℚ) (data_dir vfmt afmt : String)
    (row : List String) (j : Job)
    (h : processRow fs floatVal data_dir vfmt afmt row = .ok (.submit j)) :
    ¬(fs (data_dir ++ "/video/" ++
        get_media_filename j.ytid j.ts_start j.ts_end ++ "." ++ vfmt) = true ∧
      fs (data_dir ++ "/audio/" ++
        get_media_filename j.ytid j.ts_start j.ts_end ++ "." ++ afmt) = true) := by
  intro hex
  simp only [processRow] at h
  repeat (any_goals (split at h))
  all_goals (
    first
    | (simp only [Except.ok.injEq, RowAction.submit.injEq] at h
       subst h
       simp_all)
    | simp_all)

/-- **C5.** A manifest row that parses and whose two derived output files
already exist is skipped (`existsSkip`), and, across a whole dispatcher run,
every job actually submitted to the pool comes from a row at least one of
whose derived output files was absent: a row with both outputs present
never submits a worker (and hence performs no subprocess work). -/
theorem c5_skip_existing (fs : String → Bool) (floatVal : String → Option ℚ)
    (data_dir vfmt afmt : String) :
    (∀ row f0 c0 f1 f2 s e,
      row[0]? = some f0 → f0.data[0]? = some c0 → c0 ≠ '#' →
      row[1]? = some f1 → floatVal f1 = some s →
      row[2]? = some f2 → floatVal f2 = some e →
      fs (data_dir ++ "/video/" ++ get_media_filename f0 s e ++ "." ++ vfmt)
        = true →
      fs (data_dir ++ "/audio/" ++ get_media_filename f0 s e ++ "." ++ afmt)
        = true →
      processRow fs floatVal data_dir vfmt afmt row = .ok .existsSkip) ∧
    (∀ manifest j,
      j ∈ (download_subset_videos fs floatVal data_dir vfmt afmt manifest).1 →
      ¬(fs (data_dir ++ "/video/" ++
          get_media_filename j.ytid j.ts_start j.ts_end ++ "." ++ vfmt)
            = true ∧
        fs (data_dir ++ "/audio/" ++
          get_media_filename j.ytid j.ts_start j.ts_end ++ "." ++ afmt)
            = true)) := by
  constructor
  · intro row f0 c0 f1 f2 s e h0 hc0 hcn h1 hs h2 he hfv hfa
    simp [processRow, h0, hc0, hcn, h1, hs, h2, he, hfv, hfa]
  · intro manifest
    induction manifest with
    | nil =>
      intro j hj
      simp [download_subset_videos] at hj
    | cons x rest ih =>
      intro j hj
      rcases x with m | row
      · simp [download_subset_videos] at hj
      · rcases hpr : processRow fs floatVal data_dir vfmt afmt row with
          e1 | act
        · simp [download_subset_videos, hpr] at hj
        · cases act with
          | commentSkip =>
            rw [download_subset_videos] at hj
            simp only [hpr] at hj
            exact ih j hj
          | existsSkip =>
            rw [download_subset_videos] at hj
            simp only [hpr] at hj
            exact ih j hj
          | submit j0 =>
            rw [download_subset_videos] at hj
            simp only [hpr, List.mem_cons] at hj
            rcases hj with rfl | hj
            · exact processRow_submit_not_exists fs floatVal data_dir vfmt
                afmt row j hpr
            · exact ih j hj

/-- **C5 witness.** With every file present and every field parsing, a
manifest row is dispatched to `existsSkip`. -/
theorem c5_skip_existing_witness :
    processRow (fun _ => true) (fun _ => some 1) "d" "mp4" "flac"
      ["vid", "1.0", "2.0"] = .ok .existsSkip :=
  (c5_skip_existing (fun _ => true) (fun _ => some 1) "d" "mp4" "flac").1
    ["vid", "1.0", "2.0"] "vid" 'v' "1.0" "2.0" 1 1 rfl rfl (by decide)
    rfl rfl rfl rfl rfl rfl

/-- **C10.** When the manifest stream contains an empty row (a blank line,
for which the CSV reader yields an empty list), and every earlier item is a
parsed row the loop body handles without an exception, the dispatcher run
terminates with an *uncaught* `IndexError` from subscripting `row[0]` — not
through the descriptive `sys.exit` path reserved for `csv.Error` — and the
jobs submitted are exactly those of the prefix before the empty row (the
rows after it are never reached). -/
theorem c10_empty_row_index_error (fs : String → Bool)
    (floatVal : String → Option ℚ) (data_dir vfmt afmt : String)
    (pre post : List (Except Unit (List String)))
    (hpre : ∀ x ∈ pre, ∃ row act, x = Except.ok row ∧
      processRow fs floatVal data_dir vfmt afmt row = .ok act) :
    (download_subset_videos fs floatVal data_dir vfmt afmt
        (pre ++ Except.ok [] :: post)).2 = .uncaught .indexError ∧
    (download_subset_videos fs floatVal data_dir vfmt afmt
        (pre ++ Except.ok [] :: post)).1 =
      (download_subset_videos fs floatVal data_dir vfmt afmt pre).1 := by
  induction pre with
  | nil =>
    simp [download_subset_videos, processRow]
  | cons x rest ih =>
    obtain ⟨row, act, rfl, hact⟩ := hpre x (by simp)
    have ihh := ih (fun y hy => hpre y (by simp [hy]))
    cases act <;>
      simp [download_subset_videos, hact, ihh.1, ihh.2]

/-- **C10 witness.** A manifest of one comment row followed by an empty
row: the run ends in the uncaught `IndexError`, with no job submitted. -/
theorem c10_empty_row_index_error_witness :
    (download_subset_videos (fun _ => false) (fun _ => none) "d" "mp4" "flac"
        [Except.ok ["#c"], Except.ok []]).2 = .uncaught .indexError ∧
    (download_subset_videos (fun _ => false) (fun _ => none) "d" "mp4" "flac"
        [Except.ok ["#c"], Except.ok []]).1 =
      (download_subset_videos (fun _ => false) (fun _ => none) "d" "mp4"
        "flac" [Except.ok ["#c"]]).1 :=
  c10_empty_row_index_error (fun _ => false) (fun _ => none) "d" "mp4" "flac"
    [Except.ok ["#c"]] []
    (by
      intro x hx
      simp only [List.mem_singleton] at hx
      subst hx
      exact ⟨["#c"], .commentSkip, rfl, rfl⟩)

/-- **C7 counterexample.** On a missing output path the audio validator
raises the validation-error type, but the video validator raises
`SubprocessError` (propagated from `run_command` running ffprobe on the
missing file) — a different exception type — refuting the claim that both
validators fail with `FatalValidationError`. -/
theorem c7_counterexample :
    validate_video false
      (some ⟨[⟨some "video", some (30, 1), some (30, 1), some 300,
        some "h264"⟩]⟩)
      ⟨(30, 1), (30, 1), "h264", 10⟩ false = .subprocessError ∧
    validate_audio false ⟨16, 2, "FLAC", 427200, 48000⟩
      ⟨48000, 2, 16, "FLAC", 10⟩ false =
        .validationError "Output file does not exist." :=
  ⟨rfl, rfl⟩

/-- **C7 (amended).** On an output path missing from disk, the audio
validator fails with `FfmpegValidationError` ("Output file does not
exist."), while the video validator — which performs no existence check of
its own — fails with the `SubprocessError` raised by `run_command` when
ffprobe exits non-zero on the missing input. -/
theorem c7_missing_file (sox : SoxInfo) (info : AudioInfo) (ep : Bool)
    (probe : Option FfprobeJson) (vinfo : VideoInfo) (ep2 : Bool) :
    validate_audio false sox info ep =
      .validationError "Output file does not exist." ∧
    validate_video false probe vinfo ep2 = .subprocessError :=
  ⟨rfl, rfl⟩

/-- **C8.** The derived output basename is the source ID, the start time in
milliseconds and the end time in milliseconds joined by underscores, with
milliseconds obtained by truncating `seconds * 1000` toward zero; and the
dispatcher's skip-check paths coincide with the worker's output paths for
the same row — the invariant behind idempotent skipping. -/
theorem c8_media_filename (ytid : String) (s e : ℚ) :
    get_media_filename ytid s e =
      ytid ++ "_" ++ toString (pyInt (s * 1000)) ++ "_" ++
        toString (pyInt (e * 1000)) ∧
    (∀ s2 e2, s = s2 → e = e2 →
      get_media_filename ytid s e = get_media_filename ytid s2 e2) ∧
    (∀ dir vd hbv u1 u2 u3 (cfg : DLConfig),
      cfg.video_mode = "bestvideoaudio" →
      (download_yt_video ytid s e dir vd hbv u1 u2 u3 cfg).1.map
          (fun inv => inv.output_path) =
        [dir ++ "/audio/" ++ get_media_filename ytid s e ++ "." ++
          cfg.audio_format,
         dir ++ "/video/" ++ get_media_filename ytid s e ++ "." ++
          cfg.video_format]) := by
  refine ⟨rfl, ?_, ?_⟩
  · intro s2 e2 hs he
    rw [hs, he]
  · intro dir vd hbv u1 u2 u3 cfg hmode
    simp [download_yt_video, hmode]

/-- **C8 witness.** The basename formula and path coincidence at a concrete
segment. -/
theorem c8_media_filename_witness :
    get_media_filename "abc" 2 10 =
      "abc" ++ "_" ++ toString (pyInt (2 * 1000)) ++ "_" ++
        toString (pyInt (10 * 1000)) ∧
    (download_yt_video "abc" 2 10 "data" 30 true "u1" "u2" "u3"
        { video_mode := "bestvideoaudio" }).1.map
        (fun inv => inv.output_path) =
      ["data" ++ "/audio/" ++ get_media_filename "abc" 2 10 ++ "." ++
        ({ video_mode := "bestvideoaudio" } : DLConfig).audio_format,
       "data" ++ "/video/" ++ get_media_filename "abc" 2 10 ++ "." ++
        ({ video_mode := "bestvideoaudio" } : DLConfig).video_format] :=
  ⟨(c8_media_filename "abc" 2 10).1,
   (c8_media_filename "abc" 2 10).2.2 "data" 30 true "u1" "u2" "u3"
     { video_mode := "bestvideoaudio" } rfl⟩

/-- **C6.** For an existing output file (and measurable actual duration),
each validator raises the distinguished duration-mismatch variant, carrying
exactly the target and the measured actual duration, if and only if the
actual duration differs from the target by more than the 0.7s tolerance; a
duration within the tolerance never produces a duration error. -/
theorem c6_duration_mismatch_tolerance
    (sox : SoxInfo) (info : AudioInfo) (ep : Bool)
    (pj : FfprobeJson) (stream : VideoStreamJson) (avg : ℕ × ℕ)
    (num den nb : ℕ) (vinfo : VideoInfo) (ep2 : Bool)
    (hsr : info.sample_rate ≠ 0)
    (hstreams : pj.streams ≠ [])
    (hfind : findVideoStream pj.streams = .found stream)
    (havg : stream.avg_frame_rate = some avg)
    (hrate : (stream.r_frame_rate).getD avg = (num, den))
    (hden : den ≠ 0)
    (hnb : stream.nb_frames = some nb)
    (hfr : ((num : ℚ) / (den : ℚ)) ≠ 0) :
    (∀ t2 a2, validate_audio true sox info ep = .durationMismatch t2 a2 ↔
      (t2 = info.duration ∧
       a2 = sox.num_samples / (info.sample_rate : ℚ) ∧
       TOL < |a2 - info.duration|)) ∧
    (∀ t2 a2, validate_video true (some pj) vinfo ep2 =
        .durationMismatch t2 a2 ↔
      (t2 = vinfo.duration ∧
       a2 = (nb : ℚ) / ((num : ℚ) / (den : ℚ)) ∧
       TOL < |a2 - vinfo.duration|)) := by
  have htol : (0 : ℚ) < TOL := by norm_num [TOL]
  constructor
  · intro t2 a2
    constructor
    · intro h
      simp only [validate_audio] at h
      rw [if_neg (by simp)] at h
      rw [if_neg hsr] at h
      by_cases hcond : info.duration ≠ sox.num_samples / (info.sample_rate : ℚ) ∧
          (sox.num_samples / (info.sample_rate : ℚ) < info.duration - TOL ∨
           info.duration + TOL < sox.num_samples / (info.sample_rate : ℚ))
      · rw [if_pos hcond] at h
        injection h with h1 h2
        subst h1
        subst h2
        refine ⟨rfl, rfl, ?_⟩
        rcases hcond.2 with h2 | h2
        · exact lt_abs.mpr (Or.inr (by linarith))
        · exact lt_abs.mpr (Or.inl (by linarith))
      · rw [if_neg hcond] at h
        split_ifs at h
    · rintro ⟨rfl, rfl, hout⟩
      have hdisj : sox.num_samples / (info.sample_rate : ℚ) <
            info.duration - TOL ∨
          info.duration + TOL < sox.num_samples / (info.sample_rate : ℚ) := by
        rcases lt_abs.mp hout with h | h
        · right; linarith
        · left; linarith
      have hne : info.duration ≠ sox.num_samples / (info.sample_rate : ℚ) := by
        intro hEq
        rcases hdisj with h | h <;> rw [← hEq] at h <;> linarith
      simp only [validate_audio]
      rw [if_neg (by simp), if_neg hsr, if_pos ⟨hne, hdisj⟩]
  · intro t2 a2
    constructor
    · intro h
      simp only [validate_video] at h
      rw [if_neg (by simp)] at h
      rw [if_neg hstreams] at h
      simp only [hfind] at h
      simp only [havg] at h
      simp only [hrate] at h
      rw [if_neg hden] at h
      simp only [hnb] at h
      rw [if_neg hfr] at h
      by_cases hcond : vinfo.duration ≠
          (nb : ℚ) / ((num : ℚ) / (den : ℚ)) ∧
          ((nb : ℚ) / ((num : ℚ) / (den : ℚ)) <
              vinfo.duration - TOL ∨
           vinfo.duration + TOL <
              (nb : ℚ) / ((num : ℚ) / (den : ℚ)))
      · rw [if_pos hcond] at h
        injection h with h1 h2
        subst h1
        subst h2
        refine ⟨rfl, rfl, ?_⟩
        rcases hcond.2 with h2 | h2
        · exact lt_abs.mpr (Or.inr (by linarith))
        · exact lt_abs.mpr (Or.inl (by linarith))
      · rw [if_neg hcond] at h
        repeat (any_goals (split at h))
        all_goals simp at h
    · rintro ⟨rfl, rfl, hout⟩
      have hdisj : (nb : ℚ) / ((num : ℚ) / (den : ℚ)) <
            vinfo.duration - TOL ∨
          vinfo.duration + TOL <
            (nb : ℚ) / ((num : ℚ) / (den : ℚ)) := by
        rcases lt_abs.mp hout with h | h
        · right; linarith
        · left; linarith
      have hne : vinfo.duration ≠
          (nb : ℚ) / ((num : ℚ) / (den : ℚ)) := by
        intro hEq
        rcases hdisj with h | h <;> rw [← hEq] at h <;> linarith
      simp only [validate_video]
      rw [if_neg (by simp), if_neg hstreams]
      simp only [hfind, havg, hrate]
      rw [if_neg hden]
      simp only [hnb]
      rw [if_neg hfr, if_pos ⟨hne, hdisj⟩]

/-- **C6 witness.** An audio file measuring 8.9s against a 10s target
(48000 Hz, 427200 samples) and a video stream of 267 frames at 30 fps
against a 10s target: both validators raise the duration-mismatch variant
carrying the target and the measured actual duration. -/
theorem c6_duration_mismatch_tolerance_witness :
    validate_audio true ⟨16, 2, "FLAC", 427200, 48000⟩
      ⟨48000, 2, 16, "FLAC", 10⟩ false =
      .durationMismatch 10 ((427200 : ℚ) / ((48000 : ℕ) : ℚ)) ∧
    validate_video true
      (some ⟨[⟨some "video", some (30, 1), some (30, 1), some 267,
        some "h264"⟩]⟩)
      ⟨(30, 1), (30, 1), "h264", 10⟩ false =
      .durationMismatch 10
        (((267 : ℕ) : ℚ) / (((30 : ℕ) : ℚ) / ((1 : ℕ) : ℚ))) := by
  have h := c6_duration_mismatch_tolerance
    ⟨16, 2, "FLAC", 427200, 48000⟩ ⟨48000, 2, 16, "FLAC", 10⟩ false
    ⟨[⟨some "video", some (30, 1), some (30, 1), some 267, some "h264"⟩]⟩
    ⟨some "video", some (30, 1), some (30, 1), some 267, some "h264"⟩
    (30, 1) 30 1 267 ⟨(30, 1), (30, 1), "h264", 10⟩ false
    (by decide) (by simp) rfl rfl rfl (by decide) rfl (by norm_num)
  exact ⟨(h.1 10 _).mpr
      ⟨rfl, rfl, lt_abs.mpr (Or.inr (by norm_num [TOL]))⟩,
    (h.2 10 _).mpr
      ⟨rfl, rfl, lt_abs.mpr (Or.inr (by norm_num [TOL]))⟩⟩
